import Mathlib

/-! Verification of the ai-playground backend core: a shallow embedding of
the response normalizer (`AIService.parseResponse`), the model-fallback
orchestrator (`AIService.generateComponent`), the session ledger (the
mutations performed by `routes/ai.js` and `routes/sessions.js`), and the
cache-assisted generation pipeline (`routes/ai.js`, generate handler),
together with proofs of the behavioural properties stated for them. -/

namespace Playground

/-- Model of a parsed JSON / JavaScript value as it flows between the
normalizer, the cache and the routes. JSON numbers are modelled as `Int`;
their floating-point formatting plays no role in any property here. -/
inductive JsValue where
  | null
  | bool (b : Bool)
  | num (n : Int)
  | str (s : String)
  | arr (xs : List JsValue)
  | obj (fields : List (String × JsValue))

/-- JavaScript truthiness of a value (`!v` in the source negates this):
`null`, `false`, `0` and the empty string are falsy; arrays and objects are
always truthy. -/
def jsTruthy : JsValue → Bool
  | .null => false
  | .bool b => b
  | .num n => n != 0
  | .str s => s != ""
  | .arr _ => true
  | .obj _ => true

/-- Truthiness of a property access that may be `undefined` (`none`). -/
def jsTruthyOpt : Option JsValue → Bool
  | some v => jsTruthy v
  | none => false

/-- Property lookup on an object's field list (first binding wins;
`JSON.parse` produces unique keys). -/
def jsLookup : List (String × JsValue) → String → Option JsValue
  | [], _ => none
  | p :: rest, k => if p.1 = k then some p.2 else jsLookup rest k

/-- Property access `v.k`; `undefined` (`none`) on non-objects. -/
def JsValue.getField : JsValue → String → Option JsValue
  | .obj fs, k => jsLookup fs k
  | _, _ => none

/-- Property assignment `o.k = v` on an object's field list: overwrite the
existing binding in place, or append a new one. -/
def setField (fs : List (String × JsValue)) (k : String) (v : JsValue) :
    List (String × JsValue) :=
  if (jsLookup fs k).isSome then fs.map (fun p => if p.1 = k then (k, v) else p)
  else fs ++ [(k, v)]

/-- Escapes one character for a JSON string literal. -/
def jsEscapeChar (c : Char) : String :=
  if c = '"' then "\\\"" else if c = '\\' then "\\\\"
  else if c = '\n' then "\\n" else String.singleton c

/-- Escapes a string for a JSON string literal. -/
def jsEscape (s : String) : String :=
  s.data.foldl (fun acc c => acc ++ jsEscapeChar c) ""

mutual

/-- Model of `JSON.stringify`, used by the generate route to canonicalize
the request context into the cache key. Key order is the object's
insertion order, as in JavaScript. -/
def jsStringify : JsValue → String
  | .null => "null"
  | .bool b => if b then "true" else "false"
  | .num n => toString n
  | .str s => "\"" ++ jsEscape s ++ "\""
  | .arr xs => "[" ++ String.intercalate "," (jsStringifyList xs) ++ "]"
  | .obj fs => "\x7b" ++ String.intercalate "," (jsStringifyFields fs) ++ "\x7d"

/-- Serializes the elements of a JSON array. -/
def jsStringifyList : List JsValue → List String
  | [] => []
  | v :: vs => jsStringify v :: jsStringifyList vs

/-- Serializes the fields of a JSON object. -/
def jsStringifyFields : List (String × JsValue) → List String
  | [] => []
  | (k, v) :: fs => ("\"" ++ jsEscape k ++ "\":" ++ jsStringify v) :: jsStringifyFields fs

end

/-- Drops `pre` from the front of `cs` when it is literally there. -/
def dropLit : List Char → List Char → Option (List Char)
  | [], cs => some cs
  | _ :: _, [] => none
  | p :: ps, c :: cs => if p = c then dropLit ps cs else none

/-- Splits `cs` at the first occurrence of `sub`, returning the part before
and the part after it: the lazy-capture step of the fenced-block regexes. -/
def splitAtSub (sub : List Char) : List Char → Option (List Char × List Char)
  | [] =>
    match dropLit sub [] with
    | some rest => some ([], rest)
    | none => none
  | c :: cs =>
    match dropLit sub (c :: cs) with
    | some rest => some ([], rest)
    | none => (splitAtSub sub cs).map (fun pr => (c :: pr.1, pr.2))

/-- Attempts the fenced-block pattern at the current position for the
ordered tag alternatives: a triple-backtick fence, one of the optional
language tags (tried left to right, the empty tag last), a newline, then a
lazily captured body up to the first closing newline-plus-fence. A failed
alternative falls through to the next one, as regex backtracking does. -/
def fenceHere (alts : List String) (cs : List Char) : Option (List Char) :=
  match alts with
  | [] => none
  | alt :: rest =>
    match dropLit ("```" ++ alt ++ "\n").data cs with
    | some body =>
      match splitAtSub "\n```".data body with
      | some pr => some pr.1
      | none => fenceHere rest cs
    | none => fenceHere rest cs

/-- Scans left to right for the first position at which the fence pattern
matches, mirroring a non-global JavaScript regex search. The pattern needs
at least one character, so the empty remainder never matches. -/
def fenceScan (alts : List String) : List Char → Option (List Char)
  | [] => none
  | c :: cs =>
    match fenceHere alts (c :: cs) with
    | some cap => some cap
    | none => fenceScan alts cs

/-- Capture group of `/```(?:jsx|tsx|javascript|typescript)?\n([\s\S]*?)\n```/`
applied to the response (`Session.js`, `parseResponse` fallback). -/
def jsxFenceCapture (s : String) : Option String :=
  (fenceScan ["jsx", "tsx", "javascript", "typescript", ""] s.data).map (fun cs => String.mk cs)

/-- Capture group of `/```css\n([\s\S]*?)\n```/` applied to the response. -/
def cssFenceCapture (s : String) : Option String :=
  (fenceScan ["css"] s.data).map (fun cs => String.mk cs)

/-- Leftmost-longest match of `/\{[\s\S]*\}/` (`Session.js`,
`parseResponse`): the substring from the first opening brace to the last
closing brace, provided the latter comes strictly after the former. -/
def braceMatch (s : String) : Option String :=
  match s.data.findIdx? (fun c => c = '{') with
  | none => none
  | some i =>
    match s.data.reverse.findIdx? (fun c => c = '}') with
    | none => none
    | some r =>
      let j := s.data.length - 1 - r
      if i < j then some (String.mk ((s.data.drop i).take (j - i + 1))) else none

/-- Final catch-all payload of `parseResponse`: the raw response as jsx
(with a placeholder when the response itself is falsy), placeholder css. -/
def finalFallback (response : String) : JsValue :=
  .obj [("jsx", .str (if response = "" then "// Error generating component" else response)),
        ("css", .str "/* No styles provided */"),
        ("explanation", .str "Component generated with basic parsing"),
        ("features", .arr [.str "Generated component"]),
        ("props", .obj [])]

/-- `AIService.parseResponse`. `jsonParse` models `JSON.parse` applied to
the brace-matched substring: that substring starts with an opening brace,
so a successful parse is an object, given by its field list; `Except.error`
models a parse exception, which the enclosing try/catch turns into
`finalFallback`. When no brace substring matches, code fences are
extracted; the jsx falls back to the raw response verbatim. -/
def parseResponse (jsonParse : String → Except Unit (List (String × JsValue)))
    (response : String) : JsValue :=
  match braceMatch response with
  | some matched =>
    match jsonParse matched with
    | .ok parsed =>
      let parsed1 := if jsTruthyOpt (jsLookup parsed "jsx") then parsed
        else setField parsed "jsx" (.str "// No JSX code provided")
      let parsed2 := if jsTruthyOpt (jsLookup parsed1 "css") then parsed1
        else setField parsed1 "css" (.str "/* No styles provided */")
      .obj parsed2
    | .error _ => finalFallback response
  | none =>
    .obj [("jsx", .str ((jsxFenceCapture response).getD response)),
          ("css", .str ((cssFenceCapture response).getD "/* No styles provided */")),
          ("explanation", .str "Component generated successfully"),
          ("features", .arr [.str "Generated component"]),
          ("props", .obj [])]

/-- The `existingCode` object handed to the orchestrator in iteration mode. -/
structure ExistingCode where
  jsx : String
  css : String
deriving DecidableEq

/-- The orchestrator's generation context after the destructuring defaults
of `buildSystemPrompt` and `buildUserPrompt`. -/
structure AIContext where
  framework : String := "react"
  styleFramework : String := "css"
  typescript : Bool := false
  existingCode : Option ExistingCode := none
  isIteration : Bool := false

/-- Ordered fallback model list of `AIService.generateComponent`. -/
def aiModels : List String :=
  ["anthropic/claude-3.5-sonnet", "openai/gpt-4o-mini",
   "meta-llama/llama-3.1-8b-instruct:free", "microsoft/phi-3-mini-128k-instruct:free"]

/-- `AIService.buildSystemPrompt`. -/
def buildSystemPrompt (context : AIContext) : String :=
  "You are an expert frontend developer specializing in " ++ context.framework ++
  " components. \nYour task is to generate clean, modern, and functional components based on user requests.\n\nGuidelines:\n1. Always return BOTH JSX/TSX code AND CSS code\n2. Use " ++
  (if context.typescript then "TypeScript" else "JavaScript") ++
  " syntax\n3. Follow " ++ context.framework ++
  " best practices and hooks\n4. Create responsive, accessible components\n5. Use " ++
  context.styleFramework ++
  " for styling\n6. Include proper component structure with props and state when needed\n7. Add comments for complex logic\n8. Ensure the component is self-contained and ready to use\n\nResponse Format:\nReturn your response in the following JSON format:\n\x7b\n  \"jsx\": \"// Your JSX/TSX component code here\",\n  \"css\": \"/* Your CSS styles here */\",\n  \"explanation\": \"Brief explanation of the component\",\n  \"features\": [\"list\", \"of\", \"key\", \"features\"],\n  \"props\": \x7b\n    \"propName\": \"description\"\n  \x7d\n\x7d\n\nMake sure the JSON is valid and the code is production-ready."

/-- `AIService.buildUserPrompt`: iteration mode embeds the existing code
when both `isIteration` and `existingCode` are truthy, otherwise the fresh
mode prompt is built. -/
def buildUserPrompt (prompt : String) (context : AIContext) : String :=
  match context.isIteration, context.existingCode with
  | true, some existingCode =>
    "Current component code:\nJSX: " ++ existingCode.jsx ++ "\nCSS: " ++ existingCode.css ++
    "\n\nUser request for modification: " ++ prompt ++
    "\n\nPlease modify the existing component according to the user\x27s request. Keep the existing structure where possible and only change what\x27s necessary."
  | _, _ =>
    "Create a React component based on this request: " ++ prompt ++
    "\n\nPlease ensure the component is:\n- Modern and visually appealing\n- Responsive across different screen sizes\n- Accessible (proper ARIA labels, semantic HTML)\n- Well-structured and reusable\n- Includes proper styling with CSS"

/-- The part of the mock component's jsx before the interpolated prompt. -/
def mockJsxPre : String :=
  "import React from \x27react\x27;\n\nconst MockComponent = () => \x7b\n  return (\n    <div className=\"mock-component\">\n      <h2>Mock Component</h2>\n      <p>This is a mock component generated because AI services are temporarily unavailable.</p>\n      <p>Your request: \""

/-- The part of the mock component's jsx after the interpolated prompt. -/
def mockJsxPost : String :=
  "\"</p>\n      <button className=\"mock-button\">Click me</button>\n    </div>\n  );\n\x7d;\n\nexport default MockComponent;"

/-- The jsx of `AIService.getMockComponent`, interpolating the prompt. -/
def mockJsx (prompt : String) : String :=
  mockJsxPre ++ prompt ++ mockJsxPost

/-- The css of `AIService.getMockComponent`. -/
def mockCss : String :=
  ".mock-component \x7b\n  padding: 20px;\n  border: 2px dashed #ccc;\n  border-radius: 8px;\n  text-align: center;\n  background-color: #f9f9f9;\n  margin: 20px;\n\x7d\n\n.mock-button \x7b\n  background-color: #007bff;\n  color: white;\n  padding: 10px 20px;\n  border: none;\n  border-radius: 4px;\n  cursor: pointer;\n  margin-top: 10px;\n\x7d\n\n.mock-button:hover \x7b\n  background-color: #0056b3;\n\x7d"

/-- `AIService.getMockComponent`: the fixed terminal payload returned when
every model has failed, fully determined by the prompt. -/
def getMockComponent (prompt : String) : JsValue :=
  .obj [("jsx", .str (mockJsx prompt)),
        ("css", .str mockCss),
        ("explanation", .str "This is a mock component generated when AI services are unavailable. You can use this as a starting point and try again when the AI service is restored."),
        ("features", .arr [.str "Mock component", .str "Basic styling", .str "Placeholder content"]),
        ("props", .obj [])]

/-- The fallback loop of `AIService.generateComponent`: `complete` models
one provider round trip (`openai.chat.completions.create` plus reading the
first choice's content), with `Except.error` for a rejection of any kind.
A success is parsed by the normalizer and returned at once; a failure on
the last model returns the mock component. An empty model list would fall
off the loop returning `undefined`, modelled as `JsValue.null`; the real
list is non-empty so that case is unreachable. -/
def tryModels (complete : String → String → String → Except Unit String)
    (jsonParse : String → Except Unit (List (String × JsValue)))
    (prompt : String) (context : AIContext) : List String → JsValue
  | [] => .null
  | m :: rest =>
    match complete m (buildSystemPrompt context) (buildUserPrompt prompt context) with
    | .ok response => parseResponse jsonParse response
    | .error _ =>
      match rest with
      | [] => getMockComponent prompt
      | _ :: _ => tryModels complete jsonParse prompt context rest

/-- `AIService.generateComponent`, the model-fallback orchestrator. -/
def generateComponent (complete : String → String → String → Except Unit String)
    (jsonParse : String → Except Unit (List (String × JsValue)))
    (prompt : String) (context : AIContext) : JsValue :=
  tryModels complete jsonParse prompt context aiModels

/-- Chat message role (`chatMessageSchema`). -/
inductive Role where
  | user
  | assistant
deriving DecidableEq

/-- The `metadata.generatedCode` subdocument present on assistant messages
produced by generation or refinement. -/
structure GeneratedCodeMeta where
  jsx : String
  css : String
  typescript : Bool
deriving DecidableEq

/-- Chat message metadata as persisted (`chatMessageSchema.metadata`):
the schema defines only the `hasImage`, `imageUrl` and `generatedCode`
paths. Route handlers push plain objects that are cast into this schema on
assignment; under mongoose's default strict mode any other key is silently
dropped (see `castChatMeta`). -/
structure ChatMeta where
  hasImage : Bool := false
  imageUrl : Option String := none
  generatedCode : Option GeneratedCodeMeta := none
deriving DecidableEq

/-- A metadata object literal as a route handler pushes it, before the
schema cast: `isRefinement` is the extra key the refine route includes,
which is not a schema path. -/
structure RawChatMeta where
  hasImage : Option Bool := none
  imageUrl : Option String := none
  generatedCode : Option GeneratedCodeMeta := none
  isRefinement : Option Bool := none
deriving DecidableEq

/-- The mongoose strict-mode cast of a pushed metadata object into
`chatMessageSchema.metadata`: schema paths are kept (with the schema
default for an absent `hasImage`); every unknown key — in particular the
refine route's `isRefinement` — is silently dropped. -/
def castChatMeta (m : RawChatMeta) : ChatMeta :=
  { hasImage := m.hasImage.getD false, imageUrl := m.imageUrl,
    generatedCode := m.generatedCode }

/-- A chat history entry (`chatMessageSchema`); timestamps are opaque. -/
structure ChatMessage where
  role : Role
  content : String
  timestamp : Nat
  metadata : ChatMeta
deriving DecidableEq

/-- Component snapshot (`componentStateSchema`): jsx and css default to the
empty string, `preview` to null. -/
structure ComponentState where
  jsx : String := ""
  css : String := ""
  typescript : Bool := false
  preview : Option String := none
deriving DecidableEq

/-- The all-defaults component state. -/
def emptyComponent : ComponentState := {}

/-- Session counters (`sessionSchema.stats`). -/
structure Stats where
  messagesCount : Nat := 0
  generationsCount : Nat := 0
  exportsCount : Nat := 0
deriving DecidableEq

/-- Session settings (`sessionSchema.settings`). -/
structure Settings where
  autoSave : Bool := true
  framework : String := "react"
  styleFramework : String := "css"
deriving DecidableEq

/-- Session document (`sessionSchema`). `currentComponent` is `none` until
first assigned, matching a freshly created mongoose document whose single
nested subdocument path is unset. -/
structure Session where
  userId : Nat
  title : String := "New Component Session"
  description : String := ""
  chatHistory : List ChatMessage := []
  currentComponent : Option ComponentState := none
  componentVersions : List ComponentState := []
  isActive : Bool := true
  tags : List String := []
  lastAccessed : Nat := 0
  createdAt : Nat := 0
  settings : Settings := {}
  stats : Stats := {}
deriving DecidableEq

/-- The normalized payload as consumed by the route handlers, projected to
the fields they read (all typed String by the schema). The `typescript`
field is carried along to show the routes ignore it. An absent `explanation`
is modelled as `""`; both are falsy under the `||` defaults the routes use. -/
structure GeneratedPayload where
  jsx : String
  css : String := ""
  explanation : String := ""
  typescript : Option Bool := none
deriving DecidableEq

/-- The validated `context` object of POST /api/ai/generate
(`generateSchema`); every field is optional. -/
structure GenContext where
  framework : Option String := none
  styleFramework : Option String := none
  typescript : Option Bool := none
  existingCode : Option (String × String) := none
  isIteration : Option Bool := none
deriving DecidableEq

/-- Count of assistant messages carrying generated code, as computed by
`sessionSchema.methods.updateStats`. -/
def generationsCountOf (history : List ChatMessage) : Nat :=
  (history.filter (fun m =>
    (match m.role with | .assistant => true | .user => false)
    && m.metadata.generatedCode.isSome)).length

/-- Every `session.save()` runs the pre-save hook, which recomputes
`messagesCount` and `generationsCount` from the chat history via
`updateStats`; `exportsCount` is untouched. -/
def saveSession (s : Session) : Session :=
  { s with stats := { s.stats with
      messagesCount := s.chatHistory.length,
      generationsCount := generationsCountOf s.chatHistory } }

/-- The user message pushed by the generate route. -/
def genUserMessage (prompt : String) (now : Nat) : ChatMessage :=
  { role := .user, content := prompt, timestamp := now,
    metadata := { hasImage := false } }

/-- The assistant message pushed by the generate route: its content is
`generatedCode.explanation || "Component generated successfully"` and its
metadata carries the generated code with the context's typescript flag
(`context.typescript || false`). -/
def genAssistantMessage (g : GeneratedPayload) (context : GenContext) (now : Nat) : ChatMessage :=
  let code : GeneratedCodeMeta :=
    { jsx := g.jsx, css := g.css, typescript := context.typescript.getD false }
  { role := .assistant,
    content := if g.explanation = "" then "Component generated successfully" else g.explanation,
    timestamp := now,
    metadata := { generatedCode := some code } }

/-- Success path of the generate route's ledger mutation: push the two chat
messages; initialize `currentComponent` when unset; then, unless this is an
iteration on an already non-empty component, archive the non-empty previous
component and replace the current one. The `!session.currentComponent`
disjunct of the source condition is always false after the initialization,
which is folded into `cur`. Saving recomputes the stats. -/
def applyGenerationOk (s : Session) (prompt : String) (g : GeneratedPayload)
    (context : GenContext) (now : Nat) : Session :=
  let s1 := { s with chatHistory :=
    s.chatHistory ++ [genUserMessage prompt now, genAssistantMessage g context now] }
  let cur := s1.currentComponent.getD emptyComponent
  let s2 := { s1 with currentComponent := some cur }
  let s3 :=
    if context.isIteration.getD false = false ∨ cur.jsx = "" then
      { s2 with
        componentVersions := s2.componentVersions ++
          (if cur.jsx ≠ "" ∨ cur.css ≠ "" then
            [{ jsx := cur.jsx, css := cur.css, typescript := cur.typescript }] else []),
        currentComponent := some
          { jsx := g.jsx, css := g.css, typescript := context.typescript.getD false } }
    else s2
  saveSession { s3 with lastAccessed := now }

/-- Ledger effect of POST /api/ai/generate on the persisted session. The
guard models the handler's check of `generatedCode.jsx`: when it is falsy
the handler throws, responds 500, and never reaches `session.save()`, so
the persisted session is unchanged. -/
def applyGeneration (s : Session) (prompt : String) (g : GeneratedPayload)
    (context : GenContext) (now : Nat) : Except Unit Session :=
  if g.jsx = "" then .error () else .ok (applyGenerationOk s prompt g context now)

/-- The metadata object the refine route pushes on its user message:
`hasImage: false` plus the non-schema key `isRefinement: true`. -/
def refineUserRawMeta : RawChatMeta :=
  { hasImage := some false, isRefinement := some true }

/-- The user message pushed by the refine route, as persisted: the
`isRefinement` key is stripped by the strict-mode schema cast. -/
def refineUserMessage (refinementPrompt : String) (now : Nat) : ChatMessage :=
  { role := .user, content := refinementPrompt, timestamp := now,
    metadata := castChatMeta refineUserRawMeta }

/-- The metadata object the refine route pushes on its assistant message:
the generated code (whose typescript flag comes from the session's current
component, not from the refined payload) plus the non-schema key
`isRefinement: true`. -/
def refineAssistantRawMeta (refined : GeneratedPayload) (curTypescript : Bool) : RawChatMeta :=
  { generatedCode :=
      some { jsx := refined.jsx, css := refined.css, typescript := curTypescript },
    isRefinement := some true }

/-- The assistant message pushed by the refine route, as persisted: the
`isRefinement` key is stripped by the strict-mode schema cast. -/
def refineAssistantMessage (refined : GeneratedPayload) (curTypescript : Bool)
    (now : Nat) : ChatMessage :=
  { role := .assistant,
    content := if refined.explanation = "" then "Component refined successfully" else refined.explanation,
    timestamp := now,
    metadata := castChatMeta (refineAssistantRawMeta refined curTypescript) }

/-- Success path of POST /api/ai/refine: push the message pair, archive the
previous current component unconditionally, then overwrite it with the
refined code while keeping the session's typescript flag. -/
def applyRefinementOk (s : Session) (cur : ComponentState) (refinementPrompt : String)
    (refined : GeneratedPayload) (now : Nat) : Session :=
  saveSession { s with
    chatHistory := s.chatHistory ++
      [refineUserMessage refinementPrompt now,
       refineAssistantMessage refined cur.typescript now],
    componentVersions := s.componentVersions ++
      [{ jsx := cur.jsx, css := cur.css, typescript := cur.typescript }],
    currentComponent := some { jsx := refined.jsx, css := refined.css, typescript := cur.typescript },
    lastAccessed := now }

/-- Ledger effect of POST /api/ai/refine. The handler dereferences
`session.currentComponent.typescript` before any mutation: on a session
without a current component it throws, responds 500, and saves nothing. -/
def applyRefinement (s : Session) (refinementPrompt : String) (refined : GeneratedPayload)
    (now : Nat) : Except Unit Session :=
  match s.currentComponent with
  | none => .error ()
  | some cur => .ok (applyRefinementOk s cur refinementPrompt refined now)

/-- The user message pushed by the image-generation route, carrying the
uploaded image as a data URL. -/
def imageUserMessage (prompt : String) (imageDataUrl : String) (now : Nat) : ChatMessage :=
  { role := .user, content := prompt, timestamp := now,
    metadata := { hasImage := true, imageUrl := some imageDataUrl } }

/-- The assistant message pushed by the image-generation route. -/
def imageAssistantMessage (g : GeneratedPayload) (now : Nat) : ChatMessage :=
  { role := .assistant,
    content := if g.explanation = "" then "Component generated from image and prompt" else g.explanation,
    timestamp := now,
    metadata := { generatedCode := some { jsx := g.jsx, css := g.css, typescript := false } } }

/-- Ledger effect of POST /api/ai/generate-with-image: push the pair,
archive the previous component when non-empty, overwrite the current one
with typescript fixed to false. The handler dereferences
`session.currentComponent.jsx` with no initialization guard, so a session
without a current component yields a 500 with nothing saved. -/
def applyImageGeneration (s : Session) (prompt : String) (imageDataUrl : String)
    (g : GeneratedPayload) (now : Nat) : Except Unit Session :=
  match s.currentComponent with
  | none => .error ()
  | some cur =>
    .ok (saveSession { s with
      chatHistory := s.chatHistory ++
        [imageUserMessage prompt imageDataUrl now, imageAssistantMessage g now],
      componentVersions := s.componentVersions ++
        (if cur.jsx ≠ "" ∨ cur.css ≠ "" then
          [{ jsx := cur.jsx, css := cur.css, typescript := cur.typescript }] else []),
      currentComponent := some { jsx := g.jsx, css := g.css, typescript := false },
      lastAccessed := now })

/-- Partial component update accepted by PUT /api/sessions/:id. -/
structure ComponentPatch where
  jsx : Option String := none
  css : Option String := none
  typescript : Option Bool := none
deriving DecidableEq

/-- Partial settings update accepted by PUT /api/sessions/:id. -/
structure SettingsPatch where
  framework : Option String := none
  styleFramework : Option String := none
  autoSave : Option Bool := none
deriving DecidableEq

/-- The validated body of PUT /api/sessions/:id (`updateSessionSchema`). -/
structure UpdateBody where
  title : Option String := none
  description : Option String := none
  tags : Option (List String) := none
  currentComponent : Option ComponentPatch := none
  settings : Option SettingsPatch := none
deriving DecidableEq

/-- First half of PUT /api/sessions/:id: the metadata field updates. The
title check is a JS truthiness test so an empty title is ignored; the
description check is against `undefined`; settings merge field-wise under
the patch. -/
def applyMetadataUpdates (s : Session) (b : UpdateBody) : Session :=
  let s1 := match b.title with
    | some t => if t = "" then s else { s with title := t }
    | none => s
  let s2 := match b.description with
    | some d => { s1 with description := d }
    | none => s1
  let s3 := match b.tags with
    | some ts => { s2 with tags := ts }
    | none => s2
  match b.settings with
  | some p => { s3 with settings :=
      { framework := p.framework.getD s3.settings.framework,
        styleFramework := p.styleFramework.getD s3.settings.styleFramework,
        autoSave := p.autoSave.getD s3.settings.autoSave } }
  | none => s3

/-- Ledger effect of PUT /api/sessions/:id: metadata updates, then the
`currentComponent` handling and the save. A provided `currentComponent`
archives the non-empty previous component and merges the patch over it;
the handler dereferences the current component first, so the request fails
with nothing saved when there is none. -/
def applyUpdate (s : Session) (b : UpdateBody) (now : Nat) : Except Unit Session :=
  let s4 := applyMetadataUpdates s b
  match b.currentComponent with
  | none => .ok (saveSession { s4 with lastAccessed := now })
  | some patch =>
    match s4.currentComponent with
    | none => .error ()
    | some cur =>
      .ok (saveSession { s4 with
        componentVersions := s4.componentVersions ++
          (if cur.jsx ≠ "" ∨ cur.css ≠ "" then
            [{ jsx := cur.jsx, css := cur.css, typescript := cur.typescript }] else []),
        currentComponent := some
          { jsx := patch.jsx.getD cur.jsx, css := patch.css.getD cur.css,
            typescript := patch.typescript.getD cur.typescript, preview := cur.preview },
        lastAccessed := now })

/-- The ledger operations that touch a session's component state. -/
inductive LedgerOp where
  | generate (prompt : String) (payload : GeneratedPayload) (context : GenContext) (now : Nat)
  | refine (refinementPrompt : String) (refined : GeneratedPayload) (now : Nat)
  | generateWithImage (prompt : String) (imageDataUrl : String) (payload : GeneratedPayload) (now : Nat)
  | update (body : UpdateBody) (now : Nat)

/-- Dispatches one ledger operation to its route handler model. -/
def applyLedgerOp (s : Session) : LedgerOp → Except Unit Session
  | .generate prompt payload context now => applyGeneration s prompt payload context now
  | .refine rp refined now => applyRefinement s rp refined now
  | .generateWithImage prompt url payload now => applyImageGeneration s prompt url payload now
  | .update body now => applyUpdate s body now

/-- A failed request responds with an error status without reaching
`session.save()`, leaving the persisted session exactly as it was. -/
def runLedgerOp (s : Session) (op : LedgerOp) : Session :=
  match applyLedgerOp s op with
  | .ok s' => s'
  | .error _ => s

/-- Runs a sequence of ledger operations against the persisted session. -/
def runLedgerOps (s : Session) (ops : List LedgerOp) : Session :=
  ops.foldl runLedgerOp s

/-- One successful POST /api/ai/generate call, as seen by the ledger. -/
structure GenCall where
  prompt : String
  payload : GeneratedPayload
  context : GenContext
  now : Nat
deriving DecidableEq

/-- The chat messages a sequence of generation calls appends: one user and
one assistant message per call, in call order. -/
def genMessagesOf : List GenCall → List ChatMessage
  | [] => []
  | c :: rest =>
    genUserMessage c.prompt c.now ::
    genAssistantMessage c.payload c.context c.now :: genMessagesOf rest

/-- Runs a sequence of generation calls, stopping at the first failure. -/
def applyGenerations (s : Session) : List GenCall → Except Unit Session
  | [] => .ok s
  | c :: rest =>
    match applyGeneration s c.prompt c.payload c.context c.now with
    | .ok s' => applyGenerations s' rest
    | .error e => .error e

/-- A chat history entry as stripped by the export projection: metadata
dropped. -/
structure ExportedMessage where
  role : Role
  content : String
  timestamp : Nat
deriving DecidableEq

/-- The projection returned by GET /api/sessions/:id/export. -/
structure ExportData where
  title : String
  description : String
  tags : List String
  createdAt : Nat
  stats : Stats
  component : Option ComponentState
  chatHistory : List ExportedMessage
  componentVersions : List ComponentState
deriving DecidableEq

/-- GET /api/sessions/:id/export: increment `stats.exportsCount`, save the
session (running the stats-recompute hook), then build the projection from
the saved session. Returns the persisted session and the projection. -/
def exportSession (s : Session) : Session × ExportData :=
  let saved := saveSession
    { s with stats := { s.stats with exportsCount := s.stats.exportsCount + 1 } }
  (saved,
    { title := saved.title, description := saved.description, tags := saved.tags,
      createdAt := saved.createdAt, stats := saved.stats,
      component := saved.currentComponent,
      chatHistory := saved.chatHistory.map (fun m =>
        { role := m.role, content := m.content, timestamp := m.timestamp }),
      componentVersions := saved.componentVersions })

/-- The cache key computed by the generate route before session settings
are merged: the raw prompt, an underscore, and `JSON.stringify` of the raw
request context. Neither the session id nor the user id enters the key.
The Redis client then wraps every key in a fixed deterministic encoding
(`"ai_cache:"` plus base64), applied identically on read and write, so the
cache is modelled as keyed by this string directly. -/
def cacheKeyOf (prompt : String) (context : List (String × JsValue)) : String :=
  prompt ++ "_" ++ jsStringify (.obj context)

/-- Validity check the generate route applies to a cached response:
non-null, of object type, with a truthy `jsx` property. Arrays are of
object type in JS but can carry no `jsx` property out of JSON. -/
def jsValidPayload : JsValue → Bool
  | .obj fs => jsTruthyOpt (jsLookup fs "jsx")
  | _ => false

/-- Observable outcome of one run of the cache-assisted pipeline: the
payload it settles on, whether it came from the cache, whether the
orchestrator was invoked, and the write-through it attempts (key, value,
expiry seconds), if any. -/
structure PipelineResult where
  generatedCode : JsValue
  usedCache : Bool
  orchestratorInvoked : Bool
  cacheWriteAttempt : Option (String × JsValue × Nat)

/-- Session settings merged under the client context, mirroring the JS
spread `\x7b framework, styleFramework, typescript: false, ...context \x7d`:
base keys are overridden in place by client keys, new client keys are
appended in order. -/
def aiContextOf (settings : Settings) (context : List (String × JsValue)) :
    List (String × JsValue) :=
  context.foldl (fun acc kv => setField acc kv.1 kv.2)
    [("framework", .str settings.framework),
     ("styleFramework", .str settings.styleFramework),
     ("typescript", .bool false)]

/-- The cache-assisted generation pipeline of the generate route, from the
cache probe to the write-through. `cacheRead` is the outcome of
`getCachedAIResponse` on the computed key, with `Except.error` for a Redis
exception, which the route catches and ignores; `orchestrate` models
`aiService.generateComponent` applied to the merged context; the final
boolean models the outcome of the cache write, which the route also
catches and ignores, so the result cannot depend on it. The two error
exits model the route's throws on a non-object orchestrator result and on
a missing jsx; the `validateGeneratedCode` call in between only logs. -/
def generatePipeline (prompt : String) (context : List (String × JsValue))
    (settings : Settings) (cacheRead : Except Unit (Option JsValue))
    (orchestrate : String → List (String × JsValue) → JsValue)
    (_cacheWriteFails : Bool) : Except Unit PipelineResult :=
  let key := cacheKeyOf prompt context
  let cached : Option JsValue :=
    match cacheRead with
    | .ok (some v) => if jsValidPayload v then some v else none
    | .ok none => none
    | .error _ => none
  match cached with
  | some v =>
    .ok { generatedCode := v, usedCache := true, orchestratorInvoked := false,
          cacheWriteAttempt := none }
  | none =>
    let g := orchestrate prompt (aiContextOf settings context)
    let isObjectType : Bool := match g with
      | .obj _ => true
      | .arr _ => true
      | _ => false
    if isObjectType = false then .error ()
    else if jsTruthyOpt (g.getField "jsx") = false then .error ()
    else
      .ok { generatedCode := g, usedCache := false, orchestratorInvoked := true,
            cacheWriteAttempt := some (key, g, 1800) }

/-- A `JSON.parse` stand-in that always fails; the inputs below never reach
the JSON branch, so any stand-in gives the same results. -/
def jsonParseStub : String → Except Unit (List (String × JsValue)) :=
  fun _ => .error ()

/-- A completion provider that rejects every request. -/
def completeAllFail : String → String → String → Except Unit String :=
  fun _ _ _ => .error ()

/-- A freshly created session as produced by POST /api/sessions, with the
current component explicitly initialized to the empty state. -/
def freshSession : Session :=
  { userId := 1, currentComponent := some emptyComponent }

/-- A concrete generation payload used in the scenarios. -/
def sampleGenPayload : GeneratedPayload :=
  { jsx := "<div/>", css := "", explanation := "ok" }

/-- A concrete non-iteration generation context. -/
def sampleGenContext : GenContext := { isIteration := some false }

/-- A concrete iteration generation context. -/
def iterContext : GenContext := { isIteration := some true }

/-- The scenario's first generation call. -/
def sampleGenCall : GenCall :=
  { prompt := "Create a div", payload := sampleGenPayload,
    context := sampleGenContext, now := 1 }

/-- The session after the scenario's first generation call. -/
def firstGenResult : Session :=
  (applyGeneration freshSession "Create a div" sampleGenPayload sampleGenContext 1).toOption.getD freshSession

/-- A concrete non-empty current component. -/
def sampleComponent : ComponentState := { jsx := "<div/>" }

/-- A session holding a non-empty current component. -/
def sessionWithComponent : Session :=
  { userId := 1, currentComponent := some sampleComponent }

/-- A refined payload whose own typescript flag disagrees with the
session's, to exhibit that the route ignores it. -/
def sampleRefinedPayload : GeneratedPayload :=
  { jsx := "<span/>", css := "x", explanation := "refined", typescript := some true }

/-- A concrete structurally valid payload, as stored in the cache. -/
def sampleCachedPayload : JsValue := .obj [("jsx", .str "<div/>")]

/-- An orchestrator stand-in returning the sample payload. -/
def sampleOrchestrate : String → List (String × JsValue) → JsValue :=
  fun _ _ => sampleCachedPayload

/-- Fallback value for reading a pipeline result out of `Except`. -/
def pipelineFallbackResult : PipelineResult :=
  { generatedCode := .null, usedCache := false, orchestratorInvoked := false,
    cacheWriteAttempt := none }

/-- The result of an uncached pipeline run under default settings. -/
def crossRunResult : PipelineResult :=
  (generatePipeline "make a button" [] {} (.ok none) sampleOrchestrate false).toOption.getD
    pipelineFallbackResult

/-- A second principal's session settings, differing from the defaults. -/
def otherSettings : Settings :=
  { autoSave := false, framework := "vue", styleFramework := "tailwind" }

theorem jsLookup_map_set (fs : List (String × JsValue)) (k : String) (v : JsValue)
    (h : (jsLookup fs k).isSome) :
    jsLookup (fs.map (fun p => if p.1 = k then (k, v) else p)) k = some v := by
  induction fs with
  | nil => simp [jsLookup] at h
  | cons p rest ih =>
    by_cases hp : p.1 = k
    · simp [jsLookup, hp]
    · simp only [List.map_cons, if_neg hp, jsLookup, hp, if_false]
      exact ih (by simpa [jsLookup, hp] using h)

theorem jsLookup_append_new (fs : List (String × JsValue)) (k : String) (v : JsValue)
    (h : jsLookup fs k = none) :
    jsLookup (fs ++ [(k, v)]) k = some v := by
  induction fs with
  | nil => simp [jsLookup]
  | cons p rest ih =>
    by_cases hp : p.1 = k
    · simp [jsLookup, hp] at h
    · simp only [List.cons_append, jsLookup, hp, if_false]
      exact ih (by simpa [jsLookup, hp] using h)

theorem jsLookup_setField_self (fs : List (String × JsValue)) (k : String) (v : JsValue) :
    jsLookup (setField fs k v) k = some v := by
  unfold setField
  split
  · exact jsLookup_map_set fs k v (by assumption)
  · exact jsLookup_append_new fs k v (by
      rename_i h
      exact Option.not_isSome_iff_eq_none.mp (by simpa using h))

theorem jsLookup_map_ne (fs : List (String × JsValue)) (k k' : String) (v : JsValue)
    (h : k' ≠ k) :
    jsLookup (fs.map (fun p => if p.1 = k then (k, v) else p)) k' = jsLookup fs k' := by
  induction fs with
  | nil => rfl
  | cons p rest ih =>
    by_cases hp : p.1 = k
    · have hk : ¬ k = k' := fun he => h he.symm
      have hp' : ¬ p.1 = k' := by rw [hp]; exact hk
      simp only [List.map_cons, if_pos hp, jsLookup, hk, if_false, hp', ih]
    · simp only [List.map_cons, if_neg hp, jsLookup, ih]

theorem jsLookup_append_ne (fs : List (String × JsValue)) (k k' : String) (v : JsValue)
    (h : k' ≠ k) :
    jsLookup (fs ++ [(k, v)]) k' = jsLookup fs k' := by
  induction fs with
  | nil =>
    have hk : ¬ k = k' := fun he => h he.symm
    simp [jsLookup, hk]
  | cons p rest ih =>
    simp only [List.cons_append, jsLookup]
    rw [show rest.append [(k, v)] = rest ++ [(k, v)] from rfl, ih]

theorem jsLookup_setField_ne (fs : List (String × JsValue)) (k k' : String) (v : JsValue)
    (h : k' ≠ k) :
    jsLookup (setField fs k v) k' = jsLookup fs k' := by
  unfold setField
  split
  · exact jsLookup_map_ne fs k k' v h
  · exact jsLookup_append_ne fs k k' v h

theorem braceMatch_empty : braceMatch "" = none := rfl

theorem jsTruthyOpt_eq_true (o : Option JsValue) (h : jsTruthyOpt o = true) :
    ∃ v, o = some v ∧ jsTruthy v = true := by
  cases o with
  | none => simp [jsTruthyOpt] at h
  | some v => exact ⟨v, rfl, h⟩

/-- Claim C2, counterexample: at the explicit input `""` (the empty raw
text, which the claim explicitly covers), `parseResponse` returns a payload
whose jsx field is the empty string, refuting "the payload it returns has a
non-empty jsx field". The empty input contains no brace substring, so the
result does not depend on the `JSON.parse` stand-in. -/
theorem normalizer_empty_input_counterexample :
    (parseResponse jsonParseStub "").getField "jsx" = some (JsValue.str "") ∧
    jsTruthy (JsValue.str "") = false :=
  ⟨rfl, rfl⟩

/-- Claim C2, amended: for every input string and every behaviour of
`JSON.parse`, the normalizer never throws (it is a total function) and the
payload it returns has a jsx field; that field is non-empty whenever the
code-fence fallback value — the first recognized fenced block's body, or
the raw text itself when no block matches — is non-empty. In particular the
jsx can be empty only for inputs such as `""` where that fallback is empty. -/
theorem normalizer_total_with_nonempty_jsx
    (jsonParse : String → Except Unit (List (String × JsValue))) (response : String)
    (h : (jsxFenceCapture response).getD response ≠ "") :
    ∃ v, (parseResponse jsonParse response).getField "jsx" = some v ∧ jsTruthy v = true := by
  cases hb : braceMatch response with
  | none =>
    refine ⟨.str ((jsxFenceCapture response).getD response), ?_, ?_⟩
    · simp [parseResponse, hb, JsValue.getField, jsLookup]
    · simpa [jsTruthy, bne_iff_ne] using h
  | some m =>
    have hr : response ≠ "" := by
      intro he
      rw [he, braceMatch_empty] at hb
      cases hb
    cases hp : jsonParse m with
    | error e =>
      refine ⟨.str response, ?_, ?_⟩
      · simp [parseResponse, hb, hp, finalFallback, JsValue.getField, jsLookup, hr]
      · simpa [jsTruthy, bne_iff_ne] using hr
    | ok parsed =>
      by_cases h1 : jsTruthyOpt (jsLookup parsed "jsx") = true
      · obtain ⟨v, hv, htv⟩ := jsTruthyOpt_eq_true _ h1
        by_cases h2 : jsTruthyOpt (jsLookup parsed "css") = true
        · refine ⟨v, ?_, htv⟩
          simp only [parseResponse, hb, hp, JsValue.getField]
          rw [if_pos h1, if_pos h2]
          exact hv
        · refine ⟨v, ?_, htv⟩
          simp only [parseResponse, hb, hp, JsValue.getField]
          rw [if_pos h1, if_neg h2,
            jsLookup_setField_ne parsed "css" "jsx" (.str "/* No styles provided */") (by decide)]
          exact hv
      · have hset : jsLookup (setField parsed "jsx" (.str "// No JSX code provided")) "jsx" =
            some (.str "// No JSX code provided") := jsLookup_setField_self _ _ _
        refine ⟨.str "// No JSX code provided", ?_, by decide⟩
        simp only [parseResponse, hb, hp, JsValue.getField]
        rw [if_neg h1]
        by_cases h2 : jsTruthyOpt (jsLookup (setField parsed "jsx" (.str "// No JSX code provided")) "css") = true
        · rw [if_pos h2]
          exact hset
        · rw [if_neg h2,
            jsLookup_setField_ne _ "css" "jsx" (.str "/* No styles provided */") (by decide)]
          exact hset

/-- Claim C2, witness for the amended theorem: the pure-prose input
`"hello"` has a non-empty fallback, and the normalizer returns a truthy
jsx for it. -/
theorem normalizer_total_with_nonempty_jsx_witness :
    (jsxFenceCapture "hello").getD "hello" ≠ "" ∧
    ∃ v, (parseResponse jsonParseStub "hello").getField "jsx" = some v ∧ jsTruthy v = true :=
  ⟨by decide, normalizer_total_with_nonempty_jsx jsonParseStub "hello" (by decide)⟩

set_option maxRecDepth 8000 in
theorem mockJsx_ne_empty (prompt : String) : mockJsx prompt ≠ "" := by
  intro he
  have hlen := congrArg String.length he
  rw [mockJsx, String.length_append, String.length_append] at hlen
  have hA : 0 < mockJsxPre.length := by decide
  simp at hlen
  omega

/-- Claim C3: when the completion provider fails for every model in the
fixed ordered list, `generateComponent` returns the fixed mock payload —
which has non-empty jsx, css and explanation, and is fully determined by
the input prompt alone (the right-hand side mentions nothing else) —
rather than raising an exception; by type, `generateComponent` is total, so
a well-formed call never surfaces a hard failure. -/
theorem orchestrator_mock_on_exhaustion
    (complete : String → String → String → Except Unit String)
    (jsonParse : String → Except Unit (List (String × JsValue)))
    (prompt : String) (context : AIContext)
    (h : ∀ m ∈ aiModels, ∀ sys usr, complete m sys usr = Except.error ()) :
    generateComponent complete jsonParse prompt context = getMockComponent prompt ∧
    jsTruthyOpt ((getMockComponent prompt).getField "jsx") = true ∧
    jsTruthyOpt ((getMockComponent prompt).getField "css") = true ∧
    jsTruthyOpt ((getMockComponent prompt).getField "explanation") = true := by
  have h1 := h "anthropic/claude-3.5-sonnet" (by simp [aiModels])
    (buildSystemPrompt context) (buildUserPrompt prompt context)
  have h2 := h "openai/gpt-4o-mini" (by simp [aiModels])
    (buildSystemPrompt context) (buildUserPrompt prompt context)
  have h3 := h "meta-llama/llama-3.1-8b-instruct:free" (by simp [aiModels])
    (buildSystemPrompt context) (buildUserPrompt prompt context)
  have h4 := h "microsoft/phi-3-mini-128k-instruct:free" (by simp [aiModels])
    (buildSystemPrompt context) (buildUserPrompt prompt context)
  refine ⟨?_, ?_, rfl, rfl⟩
  · simp [generateComponent, aiModels, tryModels, h1, h2, h3, h4]
  · simpa [getMockComponent, JsValue.getField, jsLookup, jsTruthyOpt, jsTruthy, bne_iff_ne]
      using mockJsx_ne_empty prompt

/-- Claim C3, witness: a provider failing on every request makes
`generateComponent` return the mock payload for a concrete prompt. -/
theorem orchestrator_mock_on_exhaustion_witness :
    generateComponent completeAllFail jsonParseStub "Create a button" {} =
      getMockComponent "Create a button" ∧
    jsTruthyOpt ((getMockComponent "Create a button").getField "jsx") = true ∧
    jsTruthyOpt ((getMockComponent "Create a button").getField "css") = true ∧
    jsTruthyOpt ((getMockComponent "Create a button").getField "explanation") = true :=
  orchestrator_mock_on_exhaustion completeAllFail jsonParseStub "Create a button" {}
    (fun _ _ _ _ => rfl)

theorem applyGeneration_chat (s : Session) (prompt : String) (g : GeneratedPayload)
    (context : GenContext) (now : Nat) (h : ¬ g.jsx = "") :
    applyGeneration s prompt g context now = .ok (applyGenerationOk s prompt g context now) ∧
    (applyGenerationOk s prompt g context now).chatHistory =
      s.chatHistory ++ [genUserMessage prompt now, genAssistantMessage g context now] := by
  constructor
  · simp [applyGeneration, h]
  · simp only [applyGenerationOk, saveSession]
    split <;> rfl

theorem applyGenerations_ok (s : Session) (calls : List GenCall)
    (h : ∀ c ∈ calls, ¬ c.payload.jsx = "") :
    ∃ s', applyGenerations s calls = .ok s' ∧
      s'.chatHistory = s.chatHistory ++ genMessagesOf calls := by
  induction calls generalizing s with
  | nil => exact ⟨s, rfl, by simp [genMessagesOf]⟩
  | cons c rest ih =>
    have hc := h c (List.mem_cons_self c rest)
    obtain ⟨heq, hchat⟩ := applyGeneration_chat s c.prompt c.payload c.context c.now hc
    obtain ⟨s', hs', hchat'⟩ := ih (applyGenerationOk s c.prompt c.payload c.context c.now)
      (fun d hd => h d (List.mem_cons_of_mem c hd))
    refine ⟨s', ?_, ?_⟩
    · simp [applyGenerations, heq, hs']
    · rw [hchat', hchat, genMessagesOf]
      simp

theorem genMessagesOf_length (calls : List GenCall) :
    (genMessagesOf calls).length = 2 * calls.length := by
  induction calls with
  | nil => rfl
  | cons c rest ih =>
    simp [genMessagesOf, ih]
    omega

/-- Claim C1: for every session and every list of successful generation
calls (valid payloads: truthy jsx and an explanation present), running the
calls succeeds and leaves the chat history equal to the old history
followed by one user/assistant pair per call in order — so earlier
messages are never reordered or deleted, the length grows by exactly 2N,
and a session starting from the empty history ends with exactly 2N
messages. Each pair's user message carries the prompt and each assistant
message carries the payload's explanation with `metadata.generatedCode`
set. -/
theorem generation_chat_pairing (s : Session) (calls : List GenCall)
    (h : ∀ c ∈ calls, c.payload.jsx ≠ "" ∧ c.payload.explanation ≠ "") :
    ∃ s', applyGenerations s calls = .ok s' ∧
      s'.chatHistory = s.chatHistory ++ genMessagesOf calls ∧
      s'.chatHistory.length = s.chatHistory.length + 2 * calls.length ∧
      ∀ c ∈ calls,
        (genUserMessage c.prompt c.now).role = Role.user ∧
        (genUserMessage c.prompt c.now).content = c.prompt ∧
        (genAssistantMessage c.payload c.context c.now).role = Role.assistant ∧
        (genAssistantMessage c.payload c.context c.now).content = c.payload.explanation ∧
        (genAssistantMessage c.payload c.context c.now).metadata.generatedCode =
          some { jsx := c.payload.jsx, css := c.payload.css,
                 typescript := c.context.typescript.getD false } := by
  obtain ⟨s', hs', hchat⟩ := applyGenerations_ok s calls (fun c hc => (h c hc).1)
  refine ⟨s', hs', hchat, ?_, ?_⟩
  · rw [hchat]
    simp [genMessagesOf_length]
  · intro c hc
    refine ⟨rfl, rfl, rfl, ?_, rfl⟩
    simp [genAssistantMessage, (h c hc).2]

/-- Claim C1, witness: one successful generation call on a fresh session. -/
theorem generation_chat_pairing_witness :
    ∃ s', applyGenerations freshSession [sampleGenCall] = .ok s' ∧
      s'.chatHistory = freshSession.chatHistory ++ genMessagesOf [sampleGenCall] ∧
      s'.chatHistory.length = freshSession.chatHistory.length + 2 * [sampleGenCall].length ∧
      ∀ c ∈ [sampleGenCall],
        (genUserMessage c.prompt c.now).role = Role.user ∧
        (genUserMessage c.prompt c.now).content = c.prompt ∧
        (genAssistantMessage c.payload c.context c.now).role = Role.assistant ∧
        (genAssistantMessage c.payload c.context c.now).content = c.payload.explanation ∧
        (genAssistantMessage c.payload c.context c.now).metadata.generatedCode =
          some { jsx := c.payload.jsx, css := c.payload.css,
                 typescript := c.context.typescript.getD false } :=
  generation_chat_pairing freshSession [sampleGenCall] (by
    intro c hc
    simp only [List.mem_singleton] at hc
    subst hc
    exact ⟨by decide, by decide⟩)

/-- Claim C5, counterexample: the refine route does push
`isRefinement: true` inside both messages' metadata, but
`chatMessageSchema.metadata` defines no such path and mongoose's default
strict mode strips the unknown key on assignment — so at the concrete
refinement call below, the persisted pair's metadata is exactly what it
would have been had the flag never been set. The persisted messages are
therefore never marked `isRefinement`, refuting the claim as stated. -/
theorem refinement_marker_counterexample :
    refineUserRawMeta.isRefinement = some true ∧
    (refineAssistantRawMeta sampleRefinedPayload sampleComponent.typescript).isRefinement =
      some true ∧
    (refineUserMessage "make it a span" 2).metadata =
      castChatMeta { refineUserRawMeta with isRefinement := none } ∧
    (refineAssistantMessage sampleRefinedPayload sampleComponent.typescript 2).metadata =
      castChatMeta
        { refineAssistantRawMeta sampleRefinedPayload sampleComponent.typescript with
          isRefinement := none } :=
  ⟨rfl, rfl, rfl, rfl⟩

/-- Claim C5, amended: every refinement call on a session holding a
current component succeeds and appends the user/assistant pair — whose
persisted metadata is the strict-mode schema cast of the pushed objects,
and since that cast discards the `isRefinement` key entirely, the
persisted messages carry no marker even though the route sets one —
unconditionally archives the prior current component onto
`componentVersions` (with no emptiness check), and overwrites the current
component with the refined jsx and css while keeping the session's
existing typescript flag; the refined payload's own typescript field,
which is universally quantified here, never enters the result. -/
theorem refinement_ledger_effect (s : Session) (cur : ComponentState)
    (refined : GeneratedPayload) (rp : String) (now : Nat)
    (h : s.currentComponent = some cur) :
    ∃ s', applyRefinement s rp refined now = .ok s' ∧
      s'.chatHistory = s.chatHistory ++
        [refineUserMessage rp now, refineAssistantMessage refined cur.typescript now] ∧
      (refineUserMessage rp now).metadata = castChatMeta refineUserRawMeta ∧
      (refineAssistantMessage refined cur.typescript now).metadata =
        castChatMeta (refineAssistantRawMeta refined cur.typescript) ∧
      (∀ m : RawChatMeta, castChatMeta m = castChatMeta { m with isRefinement := none }) ∧
      s'.componentVersions = s.componentVersions ++
        [{ jsx := cur.jsx, css := cur.css, typescript := cur.typescript }] ∧
      s'.currentComponent =
        some { jsx := refined.jsx, css := refined.css, typescript := cur.typescript } := by
  refine ⟨applyRefinementOk s cur rp refined now, by simp [applyRefinement, h],
    ?_, rfl, rfl, fun m => rfl, ?_, ?_⟩ <;>
    simp [applyRefinementOk, saveSession]

/-- Claim C5, witness for the amended theorem: refining a session whose
current component is non-empty, with a refined payload whose own
typescript flag disagrees with the session's. -/
theorem refinement_ledger_effect_witness :
    ∃ s', applyRefinement sessionWithComponent "make it a span" sampleRefinedPayload 2 = .ok s' ∧
      s'.chatHistory = sessionWithComponent.chatHistory ++
        [refineUserMessage "make it a span" 2,
         refineAssistantMessage sampleRefinedPayload sampleComponent.typescript 2] ∧
      (refineUserMessage "make it a span" 2).metadata = castChatMeta refineUserRawMeta ∧
      (refineAssistantMessage sampleRefinedPayload sampleComponent.typescript 2).metadata =
        castChatMeta (refineAssistantRawMeta sampleRefinedPayload sampleComponent.typescript) ∧
      (∀ m : RawChatMeta, castChatMeta m = castChatMeta { m with isRefinement := none }) ∧
      s'.componentVersions = sessionWithComponent.componentVersions ++
        [{ jsx := sampleComponent.jsx, css := sampleComponent.css,
           typescript := sampleComponent.typescript }] ∧
      s'.currentComponent =
        some { jsx := sampleRefinedPayload.jsx, css := sampleRefinedPayload.css,
               typescript := sampleComponent.typescript } :=
  refinement_ledger_effect sessionWithComponent sampleComponent sampleRefinedPayload
    "make it a span" 2 rfl

/-- Claim C9: a generation call with `isIteration` true on a session whose
current component has non-empty jsx appends the two chat messages but
leaves both `currentComponent` and `componentVersions` unchanged — the
generated payload is returned to the caller yet never stored, and nothing
is archived. -/
theorem iteration_generation_frame (s : Session) (cur : ComponentState) (prompt : String)
    (g : GeneratedPayload) (ctx : GenContext) (now : Nat)
    (hcur : s.currentComponent = some cur) (hjsx : cur.jsx ≠ "")
    (hit : ctx.isIteration = some true) (hg : g.jsx ≠ "") :
    ∃ s', applyGeneration s prompt g ctx now = .ok s' ∧
      s'.currentComponent = s.currentComponent ∧
      s'.componentVersions = s.componentVersions ∧
      s'.chatHistory = s.chatHistory ++ [genUserMessage prompt now, genAssistantMessage g ctx now] := by
  refine ⟨applyGenerationOk s prompt g ctx now, by simp [applyGeneration, hg], ?_, ?_, ?_⟩ <;>
    simp [applyGenerationOk, saveSession, hcur, hit, hjsx]

/-- Claim C9, witness: an iteration call on a session with a non-empty
current component leaves the component state untouched. -/
theorem iteration_generation_frame_witness :
    ∃ s', applyGeneration sessionWithComponent "tweak it" sampleGenPayload iterContext 3 = .ok s' ∧
      s'.currentComponent = sessionWithComponent.currentComponent ∧
      s'.componentVersions = sessionWithComponent.componentVersions ∧
      s'.chatHistory = sessionWithComponent.chatHistory ++
        [genUserMessage "tweak it" 3, genAssistantMessage sampleGenPayload iterContext 3] :=
  iteration_generation_frame sessionWithComponent sampleComponent "tweak it"
    sampleGenPayload iterContext 3 rfl (by decide) rfl (by decide)

theorem applyMetadataUpdates_spec (s : Session) (b : UpdateBody) :
    (applyMetadataUpdates s b).componentVersions = s.componentVersions ∧
    (applyMetadataUpdates s b).currentComponent = s.currentComponent := by
  unfold applyMetadataUpdates
  refine ⟨?_, ?_⟩ <;> (repeat' split) <;> rfl

theorem runLedgerOp_versions (s : Session) (op : LedgerOp) :
    ∃ t, (runLedgerOp s op).componentVersions = s.componentVersions ++ t := by
  cases op with
  | generate prompt payload context now =>
    by_cases h : payload.jsx = ""
    · exact ⟨[], by simp [runLedgerOp, applyLedgerOp, applyGeneration, h]⟩
    · simp only [runLedgerOp, applyLedgerOp, applyGeneration, if_neg h, applyGenerationOk,
        saveSession]
      split
      · exact ⟨_, rfl⟩
      · exact ⟨[], by simp⟩
  | refine rp refined now =>
    cases hc : s.currentComponent with
    | none => exact ⟨[], by simp [runLedgerOp, applyLedgerOp, applyRefinement, hc]⟩
    | some cur =>
      exact ⟨[{ jsx := cur.jsx, css := cur.css, typescript := cur.typescript }],
        by simp [runLedgerOp, applyLedgerOp, applyRefinement, hc, applyRefinementOk, saveSession]⟩
  | generateWithImage prompt url payload now =>
    cases hc : s.currentComponent with
    | none => exact ⟨[], by simp [runLedgerOp, applyLedgerOp, applyImageGeneration, hc]⟩
    | some cur =>
      exact ⟨if cur.jsx ≠ "" ∨ cur.css ≠ "" then
          [{ jsx := cur.jsx, css := cur.css, typescript := cur.typescript }] else [],
        by simp [runLedgerOp, applyLedgerOp, applyImageGeneration, hc, saveSession]⟩
  | update b now =>
    obtain ⟨hv, hc⟩ := applyMetadataUpdates_spec s b
    cases hcc : b.currentComponent with
    | none =>
      exact ⟨[], by simp [runLedgerOp, applyLedgerOp, applyUpdate, hcc, saveSession, hv]⟩
    | some patch =>
      cases hcur : s.currentComponent with
      | none =>
        refine ⟨[], ?_⟩
        rw [hcur] at hc
        simp [runLedgerOp, applyLedgerOp, applyUpdate, hcc, hc]
      | some cur =>
        refine ⟨if cur.jsx ≠ "" ∨ cur.css ≠ "" then
          [{ jsx := cur.jsx, css := cur.css, typescript := cur.typescript }] else [], ?_⟩
        rw [hcur] at hc
        simp [runLedgerOp, applyLedgerOp, applyUpdate, hcc, hc, saveSession, hv]

/-- Claim C4: across any sequence of ledger operations — generate, refine,
image-generate, or manual update via PUT — the component version list of
the persisted session only ever grows by appending at the end: the old
list is an initial segment of the new one (so no snapshot is removed or
overwritten) and its length never decreases. -/
theorem componentVersions_append_only (s : Session) (ops : List LedgerOp) :
    (∃ t, (runLedgerOps s ops).componentVersions = s.componentVersions ++ t) ∧
    s.componentVersions.length ≤ (runLedgerOps s ops).componentVersions.length := by
  have main : ∀ (ops : List LedgerOp) (s : Session),
      ∃ t, (runLedgerOps s ops).componentVersions = s.componentVersions ++ t := by
    intro ops
    induction ops with
    | nil => exact fun s => ⟨[], by simp [runLedgerOps]⟩
    | cons op rest ih =>
      intro s
      obtain ⟨t1, h1⟩ := runLedgerOp_versions s op
      obtain ⟨t2, h2⟩ := ih (runLedgerOp s op)
      refine ⟨t1 ++ t2, ?_⟩
      have hfold : runLedgerOps s (op :: rest) = runLedgerOps (runLedgerOp s op) rest := rfl
      rw [hfold, h2, h1, List.append_assoc]
  obtain ⟨t, ht⟩ := main ops s
  exact ⟨⟨t, ht⟩, by rw [ht]; simp⟩

/-- Claim C6: on a session with an empty current component and empty
history, a non-iteration generation with payload jsx `"<div/>"` and empty
css stores the jsx as the current component, archives nothing (the
component version list stays empty), and leaves a chat history of length
2; and, in general, a generation applied to a session whose current
component is empty never pushes an empty placeholder onto
`componentVersions`. -/
theorem generation_empty_session_scenario :
    (∃ s', applyGeneration freshSession "Create a div" sampleGenPayload sampleGenContext 1 = .ok s' ∧
      (s'.currentComponent.map ComponentState.jsx) = some "<div/>" ∧
      s'.componentVersions = [] ∧
      s'.chatHistory.length = 2) ∧
    (∀ (s : Session) (prompt : String) (g : GeneratedPayload) (ctx : GenContext) (now : Nat)
      (s' : Session),
      applyGeneration s prompt g ctx now = .ok s' →
      s.currentComponent = some emptyComponent →
      s'.componentVersions = s.componentVersions) := by
  constructor
  · exact ⟨firstGenResult, rfl, rfl, rfl, rfl⟩
  · intro s prompt g ctx now s' hok hcur
    by_cases hg : g.jsx = ""
    · simp [applyGeneration, hg] at hok
    · simp only [applyGeneration, if_neg hg, Except.ok.injEq] at hok
      subst hok
      simp [applyGenerationOk, saveSession, hcur, emptyComponent]

/-- Claim C6, witness for the universally quantified part: the scenario's
own call archives nothing. -/
theorem generation_empty_session_scenario_witness :
    firstGenResult.componentVersions = freshSession.componentVersions :=
  generation_empty_session_scenario.2 freshSession "Create a div" sampleGenPayload
    sampleGenContext 1 firstGenResult rfl rfl

/-- Claim C8: on a session whose counters agree with its chat history (as
every saved session's do, since every save recomputes them), an export
increments `stats.exportsCount` by exactly one, persists that increment
before the projection is returned (the projection's stats are the saved
session's stats), and never decreases any of the three counters. -/
theorem export_increments_exports (s : Session)
    (hm : s.stats.messagesCount = s.chatHistory.length)
    (hg : s.stats.generationsCount = generationsCountOf s.chatHistory) :
    (exportSession s).1.stats.exportsCount = s.stats.exportsCount + 1 ∧
    (exportSession s).2.stats = (exportSession s).1.stats ∧
    s.stats.messagesCount ≤ (exportSession s).1.stats.messagesCount ∧
    s.stats.generationsCount ≤ (exportSession s).1.stats.generationsCount ∧
    s.stats.exportsCount ≤ (exportSession s).1.stats.exportsCount := by
  refine ⟨rfl, rfl, ?_, ?_, ?_⟩ <;> simp [exportSession, saveSession, hm, hg]

/-- Claim C8, witness: exporting a fresh session, whose counters agree
with its (empty) history. -/
theorem export_increments_exports_witness :
    (exportSession freshSession).1.stats.exportsCount = freshSession.stats.exportsCount + 1 ∧
    (exportSession freshSession).2.stats = (exportSession freshSession).1.stats ∧
    freshSession.stats.messagesCount ≤ (exportSession freshSession).1.stats.messagesCount ∧
    freshSession.stats.generationsCount ≤ (exportSession freshSession).1.stats.generationsCount ∧
    freshSession.stats.exportsCount ≤ (exportSession freshSession).1.stats.exportsCount :=
  export_increments_exports freshSession rfl rfl

/-- Claim C7: in the cache-assisted pipeline, a cache hit carrying a
structurally valid payload (object with truthy jsx) is used as the result
and the orchestrator is never consulted (the outcome is independent of the
orchestrator function); a read failure behaves exactly like a miss, and an
invalid cached value behaves exactly like a miss; on a miss whose
orchestrated result is valid, that result is returned and written through
under the computed key with the fixed expiry 1800; and the outcome never
depends on the cache write's success. -/
theorem cache_pipeline_behavior (prompt : String) (ctx : List (String × JsValue))
    (st : Settings) (orch orch' : String → List (String × JsValue) → JsValue)
    (v g : JsValue) (wf wf' : Bool) :
    (jsValidPayload v = true →
      generatePipeline prompt ctx st (.ok (some v)) orch wf =
        .ok { generatedCode := v, usedCache := true, orchestratorInvoked := false,
              cacheWriteAttempt := none } ∧
      generatePipeline prompt ctx st (.ok (some v)) orch wf =
        generatePipeline prompt ctx st (.ok (some v)) orch' wf) ∧
    (generatePipeline prompt ctx st (.error ()) orch wf =
      generatePipeline prompt ctx st (.ok none) orch wf) ∧
    (jsValidPayload v = false →
      generatePipeline prompt ctx st (.ok (some v)) orch wf =
        generatePipeline prompt ctx st (.ok none) orch wf) ∧
    (orch prompt (aiContextOf st ctx) = g → jsValidPayload g = true →
      generatePipeline prompt ctx st (.ok none) orch wf =
        .ok { generatedCode := g, usedCache := false, orchestratorInvoked := true,
              cacheWriteAttempt := some (cacheKeyOf prompt ctx, g, 1800) }) ∧
    (generatePipeline prompt ctx st (.ok none) orch wf =
      generatePipeline prompt ctx st (.ok none) orch wf') := by
  refine ⟨?_, rfl, ?_, ?_, rfl⟩
  · intro hv
    constructor <;> simp [generatePipeline, hv]
  · intro hv
    simp [generatePipeline, hv]
  · intro ho hg
    have hobj : ∃ fs, g = .obj fs ∧ jsTruthyOpt (jsLookup fs "jsx") = true := by
      cases g <;> simp [jsValidPayload] at hg
      exact ⟨_, rfl, hg⟩
    obtain ⟨fs, rfl, hfs⟩ := hobj
    simp [generatePipeline, ho, JsValue.getField, hfs]

/-- Claim C7, witness: a valid cached payload is returned as-is, and the
same request on a miss invokes the orchestrator and writes through with
expiry 1800. -/
theorem cache_pipeline_behavior_witness :
    generatePipeline "make a button" [] {} (.ok (some sampleCachedPayload)) sampleOrchestrate false =
      .ok { generatedCode := sampleCachedPayload, usedCache := true,
            orchestratorInvoked := false, cacheWriteAttempt := none } ∧
    generatePipeline "make a button" [] {} (.ok none) sampleOrchestrate false =
      .ok { generatedCode := sampleCachedPayload, usedCache := false,
            orchestratorInvoked := true,
            cacheWriteAttempt := some (cacheKeyOf "make a button" [], sampleCachedPayload, 1800) } :=
  ⟨((cache_pipeline_behavior "make a button" [] {} sampleOrchestrate sampleOrchestrate
      sampleCachedPayload sampleCachedPayload false false).1 rfl).1,
   (cache_pipeline_behavior "make a button" [] {} sampleOrchestrate sampleOrchestrate
      sampleCachedPayload sampleCachedPayload false false).2.2.2.1 rfl rfl⟩

/-- Claim C10: the cache key is computed from the prompt and the raw
client context alone, before session settings are merged and with no
session or user component. Consequently a successful uncached run under
one principal's settings writes its payload under a key that any request
with the same body reads, whatever its principal: a second run under
different settings whose cache read returns that stored payload gets it
back verbatim, with the orchestrator never invoked. -/
theorem cache_key_ignores_principal (prompt : String) (ctx : List (String × JsValue))
    (st1 st2 : Settings) (orch1 orch2 : String → List (String × JsValue) → JsValue)
    (w1 w2 : Bool) (r1 : PipelineResult)
    (h : generatePipeline prompt ctx st1 (.ok none) orch1 w1 = .ok r1) :
    r1.generatedCode = orch1 prompt (aiContextOf st1 ctx) ∧
    r1.cacheWriteAttempt = some (cacheKeyOf prompt ctx, r1.generatedCode, 1800) ∧
    generatePipeline prompt ctx st2 (.ok (some r1.generatedCode)) orch2 w2 =
      .ok { generatedCode := r1.generatedCode, usedCache := true,
            orchestratorInvoked := false, cacheWriteAttempt := none } := by
  simp only [generatePipeline] at h
  split at h
  · exact Except.noConfusion h
  · rename_i hobjType
    split at h
    · exact Except.noConfusion h
    · rename_i hjsx
      injection h with h
      subst h
      refine ⟨rfl, rfl, ?_⟩
      have hval : jsValidPayload (orch1 prompt (aiContextOf st1 ctx)) = true := by
        cases hg : orch1 prompt (aiContextOf st1 ctx) <;>
          rw [hg] at hobjType hjsx <;>
          simp_all [jsValidPayload, JsValue.getField, jsTruthyOpt]
      simp [generatePipeline, hval]

/-- Claim C10, witness: a run under default settings writes its payload
under the body-only key, and a run under different settings with the same
body returns that payload verbatim without invoking the orchestrator. -/
theorem cache_key_ignores_principal_witness :
    crossRunResult.generatedCode = sampleOrchestrate "make a button" (aiContextOf {} []) ∧
    crossRunResult.cacheWriteAttempt =
      some (cacheKeyOf "make a button" [], crossRunResult.generatedCode, 1800) ∧
    generatePipeline "make a button" [] otherSettings (.ok (some crossRunResult.generatedCode))
        sampleOrchestrate false =
      .ok { generatedCode := crossRunResult.generatedCode, usedCache := true,
            orchestratorInvoked := false, cacheWriteAttempt := none } :=
  cache_key_ignores_principal "make a button" [] {} otherSettings sampleOrchestrate
    sampleOrchestrate false false crossRunResult rfl

end Playground
